import Mathlib

set_option linter.unusedVariables false

/-!
Shallow embedding of the flow-send-glimmer transfer visualizer: the transfer
lifecycle and registry (`handleTransferSubmit`, `updateTransferStatus`,
`resetTransfer`), the derived sorted-history views, the animation clock
(`animate` / `finishTransfer`), the viewport synchronizer (`handleMove`,
`areViewStatesEqual`, the camera positioning effect) and the arc geometry
builder (`arcPoints`).  The repository contains two main variants of the app:
the `src/components/MoneyTransferApp.tsx` one (suffix `Tsx` below) and the
map-based one in `src/unnamed/part_002` / `part_004` (suffix `Map` / `004`).
Timestamps are modelled as `Nat` (milliseconds), JS numbers as `Rat`.
-/

/-- Transfer status, from the `'active' | 'pending' | 'completed'` union of
`TransferHistoryEntry.status`. -/
inductive TransferStatus where
  | pending
  | active
  | completed
deriving DecidableEq

/-- One registry entry, from the `TransferHistoryEntry` interface
(`src/unnamed/part_002`, lines 9-20). `completedAt` is the optional
timestamp field. -/
structure TransferHistoryEntry where
  id : String
  fromCountry : String
  toCountry : String
  amount : Rat
  fromCurrency : String
  toCurrency : String
  status : TransferStatus
  createdAt : Nat
  updatedAt : Nat
  completedAt : Option Nat
deriving DecidableEq

/-- A submission request, from the `TransferData` interface. -/
structure TransferData where
  fromCountry : String
  toCountry : String
  amount : Rat
  fromCurrency : String
  toCurrency : String
deriving DecidableEq

/-- `transfer.status === 'active' || transfer.status === 'pending'`: the
in-flight test used by `handleTransferSubmit` and `currentTransfer`. -/
def isInFlight (e : TransferHistoryEntry) : Bool :=
  match e.status with
  | .active => true
  | .pending => true
  | .completed => false

/-- Number of in-flight (Active or Pending) entries in a registry. -/
def inFlightCount (l : List TransferHistoryEntry) : Nat :=
  l.countP isInFlight

/-- The map inside `setTransferHistory` of `MoneyTransferApp.tsx`'s
`handleTransferSubmit` (lines 50-54): any Active or Pending entry is
force-completed with `updatedAt`/`completedAt` stamped `timestamp`. -/
def forceCompleteInFlight (ts : Nat) (e : TransferHistoryEntry) : TransferHistoryEntry :=
  if e.status = .active ∨ e.status = .pending then
    { e with status := .completed, updatedAt := ts, completedAt := some ts }
  else e

/-- The new entry appended by `MoneyTransferApp.tsx`'s `handleTransferSubmit`
(lines 56-66): status `'pending'`, `createdAt`/`updatedAt` the outer
`Date.now()` value `n`, `completedAt` undefined. -/
def newEntryTsx (d : TransferData) (tid : String) (n : Nat) : TransferHistoryEntry :=
  { id := tid, fromCountry := d.fromCountry, toCountry := d.toCountry,
    amount := d.amount, fromCurrency := d.fromCurrency, toCurrency := d.toCurrency,
    status := .pending, createdAt := n, updatedAt := n, completedAt := none }

/-- Registry update performed by `MoneyTransferApp.tsx`'s
`handleTransferSubmit` (lines 48-67): force-complete every in-flight entry
(inner timestamp `ts`), then append the new Pending entry (outer timestamp
`n`). -/
def handleTransferSubmitTsx (d : TransferData) (tid : String) (n ts : Nat)
    (reg : List TransferHistoryEntry) : List TransferHistoryEntry :=
  reg.map (forceCompleteInFlight ts) ++ [newEntryTsx d tid n]

/-- The 400 ms timer callback of `MoneyTransferApp.tsx` (lines 69-81): an
entry is activated only if its id matches `tid` and its status is still
`'pending'`. -/
def activationCallback (tid : String) (ts : Nat)
    (reg : List TransferHistoryEntry) : List TransferHistoryEntry :=
  reg.map fun t =>
    if t.id = tid ∧ t.status = .pending then
      { t with status := .active, updatedAt := ts }
    else t

/-- `updateTransferStatus` of `MoneyTransferApp.tsx` (lines 26-39): matches
on the id alone; `completedAt` is stamped when the new status is
`'completed'`, otherwise kept. The 4000 ms timer calls it with
`'completed'`. -/
def updateTransferStatus (tid : String) (st : TransferStatus) (ts : Nat)
    (reg : List TransferHistoryEntry) : List TransferHistoryEntry :=
  reg.map fun t =>
    if t.id = tid then
      { t with status := st, updatedAt := ts,
               completedAt := if st = .completed then some ts else t.completedAt }
    else t

/-- `GRADIENT_EPSILON = 0.001` from `src/unnamed/part_002`. -/
def GRADIENT_EPSILON : Rat := 1 / 1000

/-- `ANIMATION_SPEED = 0.0004` from `src/unnamed/part_002`. -/
def ANIMATION_SPEED : Rat := 1 / 2500

/-- `Math.abs`, used by `areViewStatesEqual` and the camera effect. -/
def mathAbs (x : Rat) : Rat := if x < 0 then -x else x

/-- `Math.max` with two arguments. -/
def mathMax (a b : Rat) : Rat := if a < b then b else a

/-- `Math.min` with two arguments. -/
def mathMin (a b : Rat) : Rat := if a < b then a else b

lemma le_mathMin {a b c : Rat} (h1 : c ≤ a) (h2 : c ≤ b) : c ≤ mathMin a b := by
  unfold mathMin
  split <;> assumption

lemma mathMin_le_left (a b : Rat) : mathMin a b ≤ a := by
  unfold mathMin
  split
  · exact le_refl a
  · exact le_of_not_lt (by assumption)

/-- App state of the part_002 variant relevant to submission: the registry,
the animation target id, the progress scalar and the `isTransferring`
flag. -/
structure AppState where
  transferHistory : List TransferHistoryEntry
  animatingTransferId : Option String
  animationProgress : Rat
  isTransferring : Bool
deriving DecidableEq

/-- The map inside `setTransferHistory` of part_002's `handleTransferSubmit`
(lines 811-820): only entries whose status is `'active'` are
force-completed; Pending entries are left untouched. -/
def forceCompleteActive (ts : Nat) (e : TransferHistoryEntry) : TransferHistoryEntry :=
  if e.status = .active then
    { e with status := .completed, updatedAt := ts, completedAt := some ts }
  else e

/-- `newEntry` of part_002's `handleTransferSubmit` (lines 822-832): the new
entry is created with status `'active'`. -/
def newEntryMap (d : TransferData) (tid : String) (ts : Nat) : TransferHistoryEntry :=
  { id := tid, fromCountry := d.fromCountry, toCountry := d.toCountry,
    amount := d.amount, fromCurrency := d.fromCurrency, toCurrency := d.toCurrency,
    status := .active, createdAt := ts, updatedAt := ts, completedAt := none }

/-- part_002's `handleTransferSubmit` (lines 799-845): bail out while
`isTransferring`; otherwise complete the Active entries, prepend the new
Active entry, reset the progress to `GRADIENT_EPSILON`, re-target the
animation and raise the `isTransferring` flag (lowered again only by the
450 ms timeout, outside this synchronous step). part_004 (lines 262-307)
is identical except that it does not touch the progress scalar. -/
def handleTransferSubmitMap (d : TransferData) (tid : String) (ts : Nat)
    (s : AppState) : AppState :=
  if s.isTransferring then s
  else
    { transferHistory :=
        newEntryMap d tid ts :: s.transferHistory.map (forceCompleteActive ts),
      animatingTransferId := some tid,
      animationProgress := GRADIENT_EPSILON,
      isTransferring := true }

/-- The submit guard of part_002's `TransferForm.handleSubmit` (lines
231-236): the submission callback runs only when not transferring and the
form amount is positive. -/
def transferFormHandleSubmitMap (d : TransferData) (tid : String) (ts : Nat)
    (s : AppState) : AppState :=
  if s.isTransferring = false ∧ 0 < d.amount then handleTransferSubmitMap d tid ts s
  else s

/-- The submit guard of `TransferForm.handleSubmit` in `MoneyTransferApp.tsx`
(lines 372-386): an empty amount field (`none`) or a parsed value `≤ 0`
returns before calling the submission callback. -/
def transferFormHandleSubmitTsx (amount : Option Rat) (d : TransferData)
    (tid : String) (n ts : Nat)
    (reg : List TransferHistoryEntry) : List TransferHistoryEntry :=
  match amount with
  | none => reg
  | some a =>
    if a ≤ 0 then reg
    else handleTransferSubmitTsx { d with amount := a } tid n ts reg

/-- `STATUS_PRIORITY` of part_002 (lines 35-39) and `statusPriority` of
part_004 (lines 9-13): active 0, pending 1, completed 2. -/
def STATUS_PRIORITY : TransferStatus → Nat
  | .active => 0
  | .pending => 1
  | .completed => 2

/-- The "a sorts no later than b" relation of the comparator in part_002's
`sortedHistory` (lines 570-576): `STATUS_PRIORITY[a.status] -
STATUS_PRIORITY[b.status] || b.updatedAt - a.updatedAt` is `≤ 0`. -/
def historyLe (a b : TransferHistoryEntry) : Prop :=
  STATUS_PRIORITY a.status < STATUS_PRIORITY b.status ∨
    (STATUS_PRIORITY a.status = STATUS_PRIORITY b.status ∧ b.updatedAt ≤ a.updatedAt)

instance : DecidableRel historyLe := fun a b => by
  unfold historyLe; infer_instance

instance : IsTotal TransferHistoryEntry historyLe where
  total a b := by
    unfold historyLe
    omega

instance : IsTrans TransferHistoryEntry historyLe where
  trans a b c hab hbc := by
    unfold historyLe at hab hbc ⊢
    omega

/-- `sortedHistory` of part_002 (lines 570-576) and part_004 (lines
124-130); `Array.prototype.sort` over the comparator is modelled as
`List.insertionSort` over the comparator's "≤ 0" relation. -/
def sortedHistoryMap (h : List TransferHistoryEntry) : List TransferHistoryEntry :=
  List.insertionSort historyLe h

/-- The `statusPriority` table local to `TransferAnimation.tsx`'s
`sortedHistory` (lines 147-155): completed 0, pending 1, active 2 —
the reverse of `STATUS_PRIORITY`. -/
def statusPriorityAnim : TransferStatus → Nat
  | .completed => 0
  | .pending => 1
  | .active => 2

/-- The "sorts no later than" relation of `TransferAnimation.tsx`'s
comparator `statusPriority[a.status] - statusPriority[b.status]`
(no tie-break). -/
def animLe (a b : TransferHistoryEntry) : Prop :=
  statusPriorityAnim a.status ≤ statusPriorityAnim b.status

instance : DecidableRel animLe := fun a b => by
  unfold animLe; infer_instance

instance : IsTotal TransferHistoryEntry animLe where
  total a b := by
    unfold animLe
    omega

instance : IsTrans TransferHistoryEntry animLe where
  trans a b c hab hbc := by
    unfold animLe at hab hbc ⊢
    omega

/-- `sortedHistory` of `TransferAnimation.tsx` (lines 147-155). -/
def sortedHistoryAnim (h : List TransferHistoryEntry) : List TransferHistoryEntry :=
  List.insertionSort animLe h

/-- Modelled from the spec's words (§4.4): "ordered by status priority
(Active=0, Pending=1, Completed=2) ascending, tie-broken by `updatedAt`
descending (most recently updated first)". Used to compare the code's
comparator against the spec's ordering. -/
def specHistoryOrder (a b : TransferHistoryEntry) : Prop :=
  STATUS_PRIORITY a.status < STATUS_PRIORITY b.status ∨
    (STATUS_PRIORITY a.status = STATUS_PRIORITY b.status ∧ b.updatedAt ≤ a.updatedAt)

instance : DecidableRel specHistoryOrder := fun a b => by
  unfold specHistoryOrder; infer_instance

/-- Per-run clock state of the part_002 animation effect (lines 683-770):
the progress scalar together with the `done` flag shared by `animate` and
`finishTransfer`. -/
structure ClockState where
  progress : Rat
  done : Bool
deriving DecidableEq

/-- State at the start of a part_002 animation run: the effect executes
`setAnimationProgress(GRADIENT_EPSILON)` (line 688) with `done = false`. -/
def clockStart : ClockState :=
  { progress := GRADIENT_EPSILON, done := false }

/-- One `animate` frame of part_002 (lines 735-762) combined with the
`finishTransfer` guard (lines 694-698): when not done, progress advances by
`delta * ANIMATION_SPEED` clamped at 1; reaching 1 runs `finishTransfer`
exactly once (the returned `Bool`), which sets the progress to 1 and stops
the run. A done clock ignores further frames. -/
def animateTick (s : ClockState) (delta : Rat) : ClockState × Bool :=
  if s.done then (s, false)
  else
    let next := mathMin 1 (s.progress + delta * ANIMATION_SPEED)
    if 1 ≤ next then ({ progress := 1, done := true }, true)
    else ({ progress := next, done := false }, false)

/-- A whole run: fold `animateTick` over a list of frame deltas, counting how
many frames report completion. -/
def runClock : ClockState → List Rat → ClockState × Nat
  | s, [] => (s, 0)
  | s, d :: ds =>
    ((runClock (animateTick s d).1 ds).1,
      (if (animateTick s d).2 then 1 else 0) + (runClock (animateTick s d).1 ds).2)

/-- One `animate` frame of part_004 (lines 209-226): progress advances by
`delta * 0.0004` and wraps around (`progress - 1`) once it exceeds 1. -/
def animateStep004 (prev delta : Rat) : Rat :=
  let progress := prev + delta * ANIMATION_SPEED
  if 1 < progress then progress - 1 else progress

/-- The progress value part_004's animation effect starts a run with:
`setAnimationProgress(0)` (line 228). -/
def animationProgressOnStart004 : Rat := 0

/-- The `padding` camera attribute (a `PaddingOptions` record). -/
structure MapPadding where
  top : Rat
  bottom : Rat
  left : Rat
  right : Rat
deriving DecidableEq

/-- `MapViewState` of part_002 (line 30): the stored viewport state. In the
stored state every field is present (`DEFAULT_VIEW_STATE` initializes them
all). -/
structure MapViewState where
  longitude : Rat
  latitude : Rat
  zoom : Rat
  bearing : Rat
  pitch : Rat
  padding : MapPadding
deriving DecidableEq

/-- `DEFAULT_VIEW_STATE` of part_002 (lines 50-57). -/
def DEFAULT_VIEW_STATE : MapViewState :=
  { longitude := 0, latitude := 0, zoom := 1, bearing := 0, pitch := 0,
    padding := { top := 0, bottom := 0, left := 0, right := 0 } }

/-- The `ViewState` carried by a move event; each field may be absent
(the `?? prev` fallbacks in `normalizeViewState` guard against that). -/
structure EventViewState where
  longitude : Option Rat
  latitude : Option Rat
  zoom : Option Rat
  bearing : Option Rat
  pitch : Option Rat
  padding : Option MapPadding
deriving DecidableEq

/-- `normalizeViewState` of part_002 (lines 186-194). -/
def normalizeViewState (prev : MapViewState) (next : EventViewState) : MapViewState :=
  { longitude := next.longitude.getD prev.longitude,
    latitude := next.latitude.getD prev.latitude,
    zoom := next.zoom.getD prev.zoom,
    bearing := next.bearing.getD prev.bearing,
    pitch := next.pitch.getD prev.pitch,
    padding := next.padding.getD prev.padding }

/-- `areViewStatesEqual` of part_002 (lines 196-205): componentwise
tolerance comparison, 1e-6 for position, 1e-3 for zoom, bearing and pitch;
padding is not compared. -/
def areViewStatesEqual (a b : MapViewState) : Prop :=
  mathAbs (a.longitude - b.longitude) ≤ 1 / 1000000 ∧
    mathAbs (a.latitude - b.latitude) ≤ 1 / 1000000 ∧
    mathAbs (a.zoom - b.zoom) ≤ 1 / 1000 ∧
    mathAbs (a.bearing - b.bearing) ≤ 1 / 1000 ∧
    mathAbs (a.pitch - b.pitch) ≤ 1 / 1000

instance : ∀ a b, Decidable (areViewStatesEqual a b) := fun a b => by
  unfold areViewStatesEqual; infer_instance

/-- `handleMove` of part_002 (lines 561-568): a notification is dropped when
the programmatic-write flag is up, or when it carries no `originalEvent`
(`userEvt = false`); otherwise the normalized event state replaces the
stored one unless indistinguishable. -/
def handleMoveMap (programmaticFlag userEvt : Bool) (prev : MapViewState)
    (ev : EventViewState) : MapViewState :=
  if programmaticFlag then prev
  else if userEvt = false then prev
  else
    let next := normalizeViewState prev ev
    if areViewStatesEqual prev next then prev else next

/-- The `onMove` handler of part_004's `Map` (lines 406-421): the stored
viewport is overwritten from the event unconditionally — neither a
programmatic-write flag nor the presence of a user input event
(`userEvt`) is consulted, and the previous state is ignored. -/
def onMove004 (userEvt : Bool) (prev : MapViewState)
    (lon lat zm br pt : Rat) (pad : Option MapPadding) : MapViewState :=
  { longitude := lon, latitude := lat, zoom := zm, bearing := br, pitch := pt,
    padding := { top := (pad.map MapPadding.top).getD 0,
                 bottom := (pad.map MapPadding.bottom).getD 0,
                 left := (pad.map MapPadding.left).getD 0,
                 right := (pad.map MapPadding.right).getD 0 } }

/-- The camera target computed by part_002's camera positioning effect
(lines 773-797) from the animating corridor's endpoints: midpoint center,
zoom `max(1, 4 - maxDistance / 40)`, other attributes kept from `prev`. -/
def cameraTargetView (prev : MapViewState) (fromC toC : Rat × Rat) : MapViewState :=
  let centerLon := (fromC.1 + toC.1) / 2
  let centerLat := (fromC.2 + toC.2) / 2
  let lonDistance := mathAbs (fromC.1 - toC.1)
  let latDistance := mathAbs (fromC.2 - toC.2)
  let maxDistance := mathMax lonDistance latDistance
  let zm := mathMax 1 (4 - maxDistance / 40)
  { prev with longitude := centerLon, latitude := centerLat, zoom := zm }

/-- The updater passed to `setViewStateProgrammatically` by part_002's
camera positioning effect (lines 788-796): keep the previous state object
when the target is indistinguishable from it. -/
def cameraPositioningEffect (prev : MapViewState) (fromC toC : Rat × Rat) : MapViewState :=
  let next := cameraTargetView prev fromC toC
  if areViewStatesEqual prev next then prev else next

/-- 3D point, from three.js `Vector3` as used by `arcPoints`. -/
structure Vec3 where
  x : Rat
  y : Rat
  z : Rat
deriving DecidableEq

/-- Coefficients of three.js's `CubicPoly`. -/
structure CubicCoeffs where
  c0 : Rat
  c1 : Rat
  c2 : Rat
  c3 : Rat
deriving DecidableEq

/-- `CubicPoly.init(x0, x1, t0, t1)` from three.js `CatmullRomCurve3`. -/
def cubicInit (x0 x1 t0 t1 : Rat) : CubicCoeffs :=
  { c0 := x0, c1 := t0, c2 := -3 * x0 + 3 * x1 - 2 * t0 - t1,
    c3 := 2 * x0 - 2 * x1 + t0 + t1 }

/-- `CubicPoly.calc(t)` from three.js. -/
def cubicCalc (c : CubicCoeffs) (t : Rat) : Rat :=
  c.c0 + c.c1 * t + c.c2 * (t * t) + c.c3 * (t * t * t)

/-- `CubicPoly.initNonuniformCatmullRom(x0, x1, x2, x3, dt0, dt1, dt2)` from
three.js (`Rat` division is total with `x / 0 = 0`; the knot values are
positive in the source). -/
def nonuniformInit (x0 x1 x2 x3 dt0 dt1 dt2 : Rat) : CubicCoeffs :=
  let t1 := ((x1 - x0) / dt0 - (x2 - x0) / (dt0 + dt1) + (x2 - x1) / dt1) * dt1
  let t2 := ((x2 - x1) / dt1 - (x3 - x1) / (dt1 + dt2) + (x3 - x2) / dt2) * dt1
  cubicInit x1 x2 t1 t2

/-- One Catmull-Rom segment evaluated componentwise at parameter `w`. -/
def catmullRomSegment (p0 p1 p2 p3 : Vec3) (dt0 dt1 dt2 w : Rat) : Vec3 :=
  { x := cubicCalc (nonuniformInit p0.x p1.x p2.x p3.x dt0 dt1 dt2) w,
    y := cubicCalc (nonuniformInit p0.y p1.y p2.y p3.y dt0 dt1 dt2) w,
    z := cubicCalc (nonuniformInit p0.z p1.z p2.z p3.z dt0 dt1 dt2) w }

/-- `CatmullRomCurve3([a, m, b]).getPoint(t)` from three.js, for the
three-control-point open curve built by `arcPoints` and `t ∈ [0, 1]`:
`p = (3 - 1) * t`, `intPoint = floor(p)`, with `t = 1` remapped to the last
segment at weight 1; ghost endpoints `2a - m` and `2b - m` extend the first
and last segment. The centripetal knot spacings are computed in the source
as fourth roots of squared distances (with small-value fixups), which are
irrational; they are abstracted here as the `knots` argument, a function of
the segment's four control points. -/
def curveGetPoint (knots : Vec3 → Vec3 → Vec3 → Vec3 → Rat × Rat × Rat)
    (a m b : Vec3) (t : Rat) : Vec3 :=
  let p : Rat := 2 * t
  let ip0 : Int := ⌊p⌋
  let w0 : Rat := p - ip0
  let ip : Int := if w0 = 0 ∧ ip0 = 2 then 1 else ip0
  let w : Rat := if w0 = 0 ∧ ip0 = 2 then 1 else w0
  if ip = 0 then
    let g : Vec3 := { x := 2 * a.x - m.x, y := 2 * a.y - m.y, z := 2 * a.z - m.z }
    let d := knots g a m b
    catmullRomSegment g a m b d.1 d.2.1 d.2.2 w
  else
    let g : Vec3 := { x := 2 * b.x - m.x, y := 2 * b.y - m.y, z := 2 * b.z - m.z }
    let d := knots a m b g
    catmullRomSegment a m b g d.1 d.2.1 d.2.2 w

/-- `curve.getPoints(50)` from three.js: samples `getPoint(d / 50)` for
`d = 0, …, 50`. -/
def getPoints50 (knots : Vec3 → Vec3 → Vec3 → Vec3 → Rat × Rat × Rat)
    (a m b : Vec3) : List Vec3 :=
  (List.range 51).map fun d : Nat => curveGetPoint knots a m b ((d : Rat) / 50)

/-- `arcPoints` of `TransferArc.tsx` (lines 38-50) and part_000 (lines
29-41): the smooth curve through start, displaced midpoint and end, sampled
with `getPoints(50)`. The displaced midpoint (computed in the source via
`normalize`/`distanceTo`, i.e. square roots) is abstracted as the `mid`
argument, and the centripetal knot spacings as `knots`; the theorems below
hold for every value of both. -/
def arcPoints (knots : Vec3 → Vec3 → Vec3 → Vec3 → Rat × Rat × Rat)
    (startPoint endPoint mid : Vec3) : List Vec3 :=
  getPoints50 knots startPoint mid endPoint

/-- A Pending registry entry, shaped like `trf-002` of part_002's
`INITIAL_TRANSFERS`, used as concrete test data. -/
def demoPendingEntry : TransferHistoryEntry :=
  { id := "trf-002", fromCountry := "US", toCountry := "MX", amount := 850,
    fromCurrency := "USD", toCurrency := "MXN", status := .pending,
    createdAt := 100, updatedAt := 200, completedAt := none }

/-- An Active registry entry, shaped like `trf-001` of part_002's
`INITIAL_TRANSFERS`, used as concrete test data. -/
def demoActiveEntry : TransferHistoryEntry :=
  { id := "trf-001", fromCountry := "UK", toCountry := "IN", amount := 1200,
    fromCurrency := "GBP", toCurrency := "INR", status := .active,
    createdAt := 100, updatedAt := 300, completedAt := none }

/-- A Completed registry entry with `completedAt` stamped 500, used as
concrete test data. -/
def demoCompletedEntry : TransferHistoryEntry :=
  { id := "trf-003", fromCountry := "DE", toCountry := "FR", amount := 430,
    fromCurrency := "EUR", toCurrency := "EUR", status := .completed,
    createdAt := 100, updatedAt := 500, completedAt := some 500 }

/-- A concrete submission request used as test data. -/
def demoData : TransferData :=
  { fromCountry := "US", toCountry := "UK", amount := 1000,
    fromCurrency := "USD", toCurrency := "GBP" }

lemma isInFlight_forceCompleteInFlight (ts : Nat) (e : TransferHistoryEntry) :
    isInFlight (forceCompleteInFlight ts e) = false := by
  unfold forceCompleteInFlight isInFlight
  rcases h : e.status <;> simp [h]

lemma isInFlight_forceCompleteActive (ts : Nat) (e : TransferHistoryEntry) :
    isInFlight (forceCompleteActive ts e) = decide (e.status = .pending) := by
  unfold forceCompleteActive isInFlight
  rcases h : e.status <;> simp [h]

/-- A submission request with amount 0, used as concrete test data. -/
def demoDataZero : TransferData :=
  { fromCountry := "US", toCountry := "UK", amount := 0,
    fromCurrency := "USD", toCurrency := "GBP" }

/-- A concrete move-event view state used as test data. -/
def demoEventViewState : EventViewState :=
  { longitude := some 9, latitude := some 9, zoom := some 3,
    bearing := none, pitch := none, padding := none }

/-- A stored viewport state that already sits at the camera target of the
degenerate corridor (0,0) → (0,0), used as concrete test data. -/
def demoCamView : MapViewState :=
  { longitude := 0, latitude := 0, zoom := 4, bearing := 0, pitch := 0,
    padding := { top := 0, bottom := 0, left := 0, right := 0 } }

/-- C10: while a submission is being processed (`isTransferring` raised, for
the 450 ms window), a further submission to the part_002/part_004
`handleTransferSubmit` is ignored in its entirety: the handler returns at
once, leaving the registry, the animation target, the progress scalar and
the flag untouched, and reports nothing to the caller (the handler's whole
effect is the returned state, which equals the prior state). -/
theorem c10_submit_while_transferring_ignored
    (d : TransferData) (tid : String) (ts : Nat) (s : AppState)
    (h : s.isTransferring = true) :
    handleTransferSubmitMap d tid ts s = s := by
  unfold handleTransferSubmitMap
  rw [if_pos h]

theorem c10_submit_while_transferring_ignored_witness :
    (AppState.mk [demoPendingEntry] (some "trf-002") 0 true).isTransferring = true ∧
      handleTransferSubmitMap demoData "t9" 50
          (AppState.mk [demoPendingEntry] (some "trf-002") 0 true) =
        AppState.mk [demoPendingEntry] (some "trf-002") 0 true :=
  ⟨rfl, c10_submit_while_transferring_ignored demoData "t9" 50 _ rfl⟩

/-- C9: a submission request with a non-positive amount is rejected
synchronously by the form guard of both variants
(`!isTransferring && formData.amount > 0` in part_002,
`if (!amount || parseFloat(amount) <= 0) return` in
`MoneyTransferApp.tsx`), and the registry and app state are left
unmodified. -/
theorem c9_nonpositive_amount_rejected :
    (∀ (d : TransferData) (tid : String) (ts : Nat) (s : AppState),
        d.amount ≤ 0 → transferFormHandleSubmitMap d tid ts s = s) ∧
      (∀ (a : Rat) (d : TransferData) (tid : String) (n ts : Nat)
          (reg : List TransferHistoryEntry),
        a ≤ 0 → transferFormHandleSubmitTsx (some a) d tid n ts reg = reg) ∧
      (∀ (d : TransferData) (tid : String) (n ts : Nat)
          (reg : List TransferHistoryEntry),
        transferFormHandleSubmitTsx none d tid n ts reg = reg) := by
  refine ⟨?_, ?_, ?_⟩
  · intro d tid ts s h
    unfold transferFormHandleSubmitMap
    rw [if_neg]
    rintro ⟨-, h2⟩
    exact absurd h (not_le.mpr h2)
  · intro a d tid n ts reg h
    simp [transferFormHandleSubmitTsx, h]
  · intro d tid n ts reg
    rfl

theorem c9_nonpositive_amount_rejected_witness :
    (demoDataZero.amount ≤ 0 ∧
        transferFormHandleSubmitMap demoDataZero "t3" 40
            (AppState.mk [demoActiveEntry] none 0 false) =
          AppState.mk [demoActiveEntry] none 0 false) ∧
      ((0 : Rat) ≤ 0 ∧
        transferFormHandleSubmitTsx (some 0) demoData "t4" 41 42 [demoActiveEntry] =
          [demoActiveEntry]) ∧
      transferFormHandleSubmitTsx none demoData "t5" 43 44 [demoActiveEntry] =
        [demoActiveEntry] :=
  ⟨⟨by decide, c9_nonpositive_amount_rejected.1 demoDataZero "t3" 40 _ (by decide)⟩,
   ⟨le_refl 0, c9_nonpositive_amount_rejected.2.1 0 demoData "t4" 41 42 _ (le_refl 0)⟩,
   c9_nonpositive_amount_rejected.2.2 demoData "t5" 43 44 _⟩

/-- C6: when the camera target computed by part_002's camera positioning
effect is indistinguishable from the current viewport state under
`areViewStatesEqual` (1e-6 for position, 1e-3 for zoom), the updater keeps
the previous state object unchanged — no fresh programmatic viewport value
is produced for that target. -/
theorem c6_redundant_camera_write_skipped
    (prev : MapViewState) (fromC toC : Rat × Rat)
    (h : areViewStatesEqual prev (cameraTargetView prev fromC toC)) :
    cameraPositioningEffect prev fromC toC = prev := by
  unfold cameraPositioningEffect
  rw [if_pos h]

unseal Rat.add Rat.sub Rat.mul Rat.inv in
theorem c6_redundant_camera_write_skipped_witness :
    areViewStatesEqual demoCamView (cameraTargetView demoCamView (0, 0) (0, 0)) ∧
      cameraPositioningEffect demoCamView (0, 0) (0, 0) = demoCamView :=
  ⟨by decide, c6_redundant_camera_write_skipped demoCamView (0, 0) (0, 0) (by decide)⟩

/-- C5 (amended): in the part_002 variant the claim holds: `handleMove`
drops any notification arriving while the programmatic-write flag is up or
carrying no originating user input event, leaving the stored viewport state
unchanged. (In the part_004 variant, refuted separately, `onMove`
overwrites the stored viewport from every notification.) -/
theorem c5_viewport_echo_suppressed_amended
    (flag userEvt : Bool) (prev : MapViewState) (ev : EventViewState)
    (h : flag = true ∨ userEvt = false) :
    handleMoveMap flag userEvt prev ev = prev := by
  rcases h with h | h <;> cases flag <;> cases userEvt <;>
    simp_all [handleMoveMap]

theorem c5_viewport_echo_suppressed_witness :
    (true = true ∨ false = false) ∧
      handleMoveMap true true DEFAULT_VIEW_STATE demoEventViewState = DEFAULT_VIEW_STATE :=
  ⟨Or.inl rfl,
   c5_viewport_echo_suppressed_amended true true DEFAULT_VIEW_STATE demoEventViewState
     (Or.inl rfl)⟩

theorem c5_viewport_echo_suppressed_cex :
    onMove004 false DEFAULT_VIEW_STATE 50 60 2 0 0 none ≠ DEFAULT_VIEW_STATE := by
  decide

/-- C4 (amended): the scheduled Pending→Active transition of
`MoneyTransferApp.tsx` is guarded by the transfer id and the expected prior
status `'pending'`, so firing it against a registry in which that transfer
is no longer Pending (superseded or reset) is a no-op. The scheduled
completion transition, however, goes through `updateTransferStatus`, which
matches on the id alone: fired against a transfer in any state — even one
already Completed — it sets the status and restamps `updatedAt` and
`completedAt` with the firing time. (Staleness is instead prevented by
`clearScheduledTimeouts` on supersession and reset.) -/
theorem c4_stale_callback_guard_amended :
    (∀ (tid : String) (ts : Nat) (reg : List TransferHistoryEntry),
        (∀ e ∈ reg, e.id = tid → e.status ≠ .pending) →
          activationCallback tid ts reg = reg) ∧
      (∀ (tid : String) (ts : Nat) (reg : List TransferHistoryEntry),
        ∀ e ∈ reg, e.id = tid →
          ∃ f ∈ updateTransferStatus tid .completed ts reg,
            f.id = tid ∧ f.status = .completed ∧ f.updatedAt = ts ∧
              f.completedAt = some ts) := by
  constructor
  · intro tid ts reg h
    unfold activationCallback
    conv_rhs => rw [← List.map_id reg]
    refine List.map_congr_left ?_
    intro e he
    have hc : ¬ (e.id = tid ∧ e.status = .pending) := by
      rintro ⟨h1, h2⟩
      exact h e he h1 h2
    rw [if_neg hc]
    rfl
  · intro tid ts reg e he hid
    refine ⟨{ e with status := .completed, updatedAt := ts, completedAt := some ts }, ?_, hid, rfl, rfl, rfl⟩
    unfold updateTransferStatus
    refine List.mem_map.mpr ⟨e, he, ?_⟩
    rw [if_pos hid]
    simp

theorem c4_stale_callback_guard_witness :
    activationCallback "trf-003" 900 [demoCompletedEntry] = [demoCompletedEntry] ∧
      ∃ f ∈ updateTransferStatus "trf-003" .completed 900 [demoCompletedEntry],
        f.id = "trf-003" ∧ f.status = .completed ∧ f.updatedAt = 900 ∧
          f.completedAt = some 900 :=
  ⟨c4_stale_callback_guard_amended.1 "trf-003" 900 [demoCompletedEntry] (by decide),
   c4_stale_callback_guard_amended.2 "trf-003" 900 [demoCompletedEntry]
     demoCompletedEntry (by decide) (by decide)⟩

theorem c4_stale_callback_guard_cex :
    updateTransferStatus "trf-003" .completed 900 [demoCompletedEntry] ≠
      [demoCompletedEntry] := by
  decide

/-- C8 (amended): in the `MoneyTransferApp.tsx` variant the newly submitted
transfer is inserted (appended) with status Pending, as claimed; in the
part_002/part_004 variant the new entry is inserted at the head with status
Active instead. -/
theorem c8_new_entry_status_amended :
    (∀ (d : TransferData) (tid : String) (n ts : Nat)
        (reg : List TransferHistoryEntry),
        (handleTransferSubmitTsx d tid n ts reg).getLast? = some (newEntryTsx d tid n) ∧
          (newEntryTsx d tid n).status = .pending) ∧
      (∀ (d : TransferData) (tid : String) (ts : Nat) (s : AppState),
        s.isTransferring = false →
          (handleTransferSubmitMap d tid ts s).transferHistory.head? =
              some (newEntryMap d tid ts) ∧
            (newEntryMap d tid ts).status = .active) := by
  constructor
  · intro d tid n ts reg
    exact ⟨List.getLast?_concat _, rfl⟩
  · intro d tid ts s h
    refine ⟨?_, rfl⟩
    unfold handleTransferSubmitMap
    rw [if_neg (by simp [h])]
    rfl

theorem c8_new_entry_status_witness :
    ((handleTransferSubmitTsx demoData "t6" 60 61 [demoActiveEntry]).getLast? =
        some (newEntryTsx demoData "t6" 60) ∧
      (newEntryTsx demoData "t6" 60).status = .pending) ∧
      (handleTransferSubmitMap demoData "t7" 70
            (AppState.mk [demoActiveEntry] none 0 false)).transferHistory.head? =
          some (newEntryMap demoData "t7" 70) ∧
        (newEntryMap demoData "t7" 70).status = .active :=
  ⟨c8_new_entry_status_amended.1 demoData "t6" 60 61 [demoActiveEntry],
   c8_new_entry_status_amended.2 demoData "t7" 70
     (AppState.mk [demoActiveEntry] none 0 false) rfl⟩

theorem c8_new_entry_status_cex :
    ∃ f ∈ (handleTransferSubmitMap demoData "trf-new" 700
        (AppState.mk [] none 0 false)).transferHistory,
      f.id = "trf-new" ∧ f.status ≠ .pending := by
  decide

lemma forceCompleteInFlight_of_inFlight (ts : Nat) (e : TransferHistoryEntry)
    (h : isInFlight e = true) :
    forceCompleteInFlight ts e =
      { e with status := .completed, updatedAt := ts, completedAt := some ts } := by
  unfold isInFlight at h
  unfold forceCompleteInFlight
  rcases hs : e.status <;> simp [hs] at h ⊢

lemma forceCompleteActive_of_active (ts : Nat) (e : TransferHistoryEntry)
    (h : e.status = .active) :
    forceCompleteActive ts e =
      { e with status := .completed, updatedAt := ts, completedAt := some ts } := by
  unfold forceCompleteActive
  rw [if_pos h]

/-- C1 (amended): in the `MoneyTransferApp.tsx` variant the claim holds as
stated: after any submission exactly one registry entry is in flight
(Active or Pending) — the newly appended Pending entry — and every entry
that was in flight before has been set to Completed with `completedAt`
stamped with the submission-time timestamp. In the part_002/part_004
variant, submission completes only the previously-Active entries (also
stamping `completedAt`); previously-Pending entries are left in flight, so
the in-flight count after submission is 1 plus the number of previously
Pending entries rather than exactly 1. -/
theorem c1_single_in_flight_amended :
    (∀ (d : TransferData) (tid : String) (n ts : Nat)
        (reg : List TransferHistoryEntry),
        inFlightCount (handleTransferSubmitTsx d tid n ts reg) = 1 ∧
          ∀ e ∈ reg, isInFlight e = true →
            ∃ f ∈ handleTransferSubmitTsx d tid n ts reg,
              f.id = e.id ∧ f.status = .completed ∧ f.completedAt = some ts) ∧
      (∀ (d : TransferData) (tid : String) (ts : Nat) (s : AppState),
        s.isTransferring = false →
          inFlightCount (handleTransferSubmitMap d tid ts s).transferHistory =
              1 + s.transferHistory.countP (fun e => decide (e.status = .pending)) ∧
            ∀ e ∈ s.transferHistory, e.status = .active →
              ∃ f ∈ (handleTransferSubmitMap d tid ts s).transferHistory,
                f.id = e.id ∧ f.status = .completed ∧ f.completedAt = some ts) := by
  constructor
  · intro d tid n ts reg
    constructor
    · unfold handleTransferSubmitTsx inFlightCount
      rw [List.countP_append, List.countP_map]
      have h0 : reg.countP (isInFlight ∘ forceCompleteInFlight ts) = 0 := by
        refine List.countP_eq_zero.mpr ?_
        intro a _
        simp [Function.comp, isInFlight_forceCompleteInFlight]
      rw [h0]
      rfl
    · intro e he hf
      refine ⟨forceCompleteInFlight ts e,
        List.mem_append_left _ (List.mem_map_of_mem _ he), ?_, ?_, ?_⟩ <;>
        rw [forceCompleteInFlight_of_inFlight ts e hf]
  · intro d tid ts s h
    have hreg : (handleTransferSubmitMap d tid ts s).transferHistory =
        newEntryMap d tid ts :: s.transferHistory.map (forceCompleteActive ts) := by
      unfold handleTransferSubmitMap
      rw [if_neg (by simp [h])]
    constructor
    · rw [hreg]
      unfold inFlightCount
      rw [List.countP_cons, List.countP_map]
      have h1 : (isInFlight ∘ forceCompleteActive ts) =
          fun e => decide (e.status = .pending) :=
        funext fun e => isInFlight_forceCompleteActive ts e
      rw [h1]
      have h2 : isInFlight (newEntryMap d tid ts) = true := rfl
      rw [h2, if_pos rfl]
      omega
    · intro e he ha
      rw [hreg]
      refine ⟨forceCompleteActive ts e,
        List.mem_cons_of_mem _ (List.mem_map_of_mem _ he), ?_, ?_, ?_⟩ <;>
        rw [forceCompleteActive_of_active ts e ha]

theorem c1_single_in_flight_witness :
    (inFlightCount (handleTransferSubmitTsx demoData "t1" 600 650 [demoPendingEntry]) = 1 ∧
        ∃ f ∈ handleTransferSubmitTsx demoData "t1" 600 650 [demoPendingEntry],
          f.id = demoPendingEntry.id ∧ f.status = .completed ∧ f.completedAt = some 650) ∧
      inFlightCount (handleTransferSubmitMap demoData "t2" 700
            (AppState.mk [demoActiveEntry] none 0 false)).transferHistory =
          1 + [demoActiveEntry].countP (fun e => decide (e.status = .pending)) ∧
        ∃ f ∈ (handleTransferSubmitMap demoData "t2" 700
            (AppState.mk [demoActiveEntry] none 0 false)).transferHistory,
          f.id = demoActiveEntry.id ∧ f.status = .completed ∧ f.completedAt = some 700 :=
  ⟨⟨(c1_single_in_flight_amended.1 demoData "t1" 600 650 [demoPendingEntry]).1,
    (c1_single_in_flight_amended.1 demoData "t1" 600 650 [demoPendingEntry]).2
      demoPendingEntry (by decide) (by decide)⟩,
   (c1_single_in_flight_amended.2 demoData "t2" 700
      (AppState.mk [demoActiveEntry] none 0 false) rfl).1,
   (c1_single_in_flight_amended.2 demoData "t2" 700
      (AppState.mk [demoActiveEntry] none 0 false) rfl).2
     demoActiveEntry (by decide) (by decide)⟩

theorem c1_single_in_flight_cex :
    inFlightCount (handleTransferSubmitMap demoData "trf-new2" 800
        (AppState.mk [demoPendingEntry] none 0 false)).transferHistory = 2 ∧
      ∃ f ∈ (handleTransferSubmitMap demoData "trf-new2" 800
          (AppState.mk [demoPendingEntry] none 0 false)).transferHistory,
        f.id = demoPendingEntry.id ∧ f.status = .pending ∧ f.completedAt = none := by
  decide

/-- C3 (amended): the comparator used by the `sortedHistory` of part_002 and
part_004 realizes exactly the spec's ordering (status priority Active=0,
Pending=1, Completed=2 ascending, ties by `updatedAt` descending), and the
derived sorted history of those variants is a permutation of the registry
sorted by that ordering. The `sortedHistory` local to
`TransferAnimation.tsx`, however (refuted separately), sorts by the reverse
priority — completed 0, pending 1, active 2 — with no `updatedAt`
tie-break. -/
theorem c3_sorted_history_amended :
    (∀ a b, historyLe a b ↔ specHistoryOrder a b) ∧
      (∀ h : List TransferHistoryEntry,
        List.Perm (sortedHistoryMap h) h ∧
          List.Sorted historyLe (sortedHistoryMap h)) ∧
      (∀ h : List TransferHistoryEntry,
        List.Perm (sortedHistoryAnim h) h ∧
          List.Sorted animLe (sortedHistoryAnim h)) :=
  ⟨fun a b => Iff.rfl,
   fun h => ⟨List.perm_insertionSort historyLe h, List.sorted_insertionSort historyLe h⟩,
   fun h => ⟨List.perm_insertionSort animLe h, List.sorted_insertionSort animLe h⟩⟩

theorem c3_sorted_history_cex :
    ¬ List.Pairwise specHistoryOrder
      (sortedHistoryAnim [demoActiveEntry, demoCompletedEntry]) := by
  decide

lemma animateTick_of_done (s : ClockState) (d : Rat) (h : s.done = true) :
    animateTick s d = (s, false) := by
  unfold animateTick
  rw [if_pos h]

lemma runClock_of_done : ∀ (ds : List Rat) (s : ClockState), s.done = true →
    runClock s ds = (s, 0)
  | [], s, h => rfl
  | d :: ds, s, h => by
    simp only [runClock, animateTick_of_done s d h]
    simp [runClock_of_done ds s h]

lemma animateTick_cases (s : ClockState) (d : Rat) (h : s.done = false) :
    animateTick s d = ({ progress := 1, done := true }, true) ∨
      ∃ q, animateTick s d = ({ progress := q, done := false }, false) := by
  unfold animateTick
  rw [if_neg (by simp [h])]
  by_cases h2 : 1 ≤ mathMin 1 (s.progress + d * ANIMATION_SPEED)
  · left
    rw [if_pos h2]
  · right
    exact ⟨_, by rw [if_neg h2]⟩

lemma runClock_count : ∀ (ds : List Rat) (s : ClockState), s.done = false →
    (runClock s ds).2 = (if (runClock s ds).1.done then 1 else 0)
  | [], s, h => by simp [runClock, h]
  | d :: ds, s, h => by
    rcases animateTick_cases s d h with ht | ⟨q, ht⟩
    · simp only [runClock, ht]
      simp [runClock_of_done ds { progress := 1, done := true } rfl]
    · simp only [runClock, ht]
      simp [runClock_count ds { progress := q, done := false } rfl]

/-- C2 (amended): for the part_002 animation effect the claim holds:
starting or re-targeting a run resets progress to `GRADIENT_EPSILON =
0.001` (strictly positive and at most 0.01); within a run each frame is
monotonically non-decreasing and clamped so progress never exceeds 1;
completion is reported exactly when progress first reaches 1, at most once
per run (exactly once in any run whose final state is done), after which
further frames change nothing. The part_004 animation effect (refuted
separately) instead resets progress to exactly 0 and wraps progress around
past 1 (`progress - 1`), never reporting completion. -/
theorem c2_animation_clock_amended :
    (0 < GRADIENT_EPSILON ∧ GRADIENT_EPSILON ≤ 1 / 100) ∧
      (∀ (s : ClockState) (delta : Rat), 0 ≤ delta → s.progress ≤ 1 →
        s.progress ≤ (animateTick s delta).1.progress ∧
          (animateTick s delta).1.progress ≤ 1) ∧
      (∀ (s : ClockState) (delta : Rat), (animateTick s delta).2 = true →
        s.done = false ∧ (animateTick s delta).1 = { progress := 1, done := true }) ∧
      (∀ (s : ClockState) (delta : Rat), s.done = true →
        animateTick s delta = (s, false)) ∧
      (∀ ds : List Rat, (runClock clockStart ds).2 ≤ 1 ∧
        ((runClock clockStart ds).2 = 1 ↔ (runClock clockStart ds).1.done = true)) := by
  refine ⟨⟨by norm_num [GRADIENT_EPSILON], by norm_num [GRADIENT_EPSILON]⟩, ?_, ?_, ?_, ?_⟩
  · intro s delta hd hp
    unfold animateTick
    by_cases h1 : s.done = true
    · rw [if_pos h1]
      exact ⟨le_refl _, hp⟩
    · rw [if_neg h1]
      by_cases h2 : 1 ≤ mathMin 1 (s.progress + delta * ANIMATION_SPEED)
      · rw [if_pos h2]
        exact ⟨hp, le_refl 1⟩
      · rw [if_neg h2]
        constructor
        · refine le_mathMin hp ?_
          have hs : 0 ≤ delta * ANIMATION_SPEED :=
            mul_nonneg hd (by norm_num [ANIMATION_SPEED])
          linarith
        · exact mathMin_le_left _ _
  · intro s delta h
    by_cases h1 : s.done = true
    · rw [animateTick_of_done s delta h1] at h
      simp at h
    · have h1f : s.done = false := by simpa using h1
      rcases animateTick_cases s delta h1f with ht | ⟨q, ht⟩
      · rw [ht]
        exact ⟨h1f, rfl⟩
      · rw [ht] at h
        simp at h
  · intro s delta h
    exact animateTick_of_done s delta h
  · intro ds
    have hc := runClock_count ds clockStart rfl
    constructor
    · rw [hc]
      split <;> simp
    · rw [hc]
      by_cases hdn : (runClock clockStart ds).1.done = true
      · simp [hdn]
      · have hf : (runClock clockStart ds).1.done = false := by simpa using hdn
        simp [hf]

unseal Rat.add Rat.sub Rat.mul Rat.inv in
theorem c2_animation_clock_witness :
    ((0 : Rat) ≤ 100 ∧ (ClockState.mk (1/2) false).progress ≤ 1 ∧
        (ClockState.mk (1/2) false).progress ≤
          (animateTick (ClockState.mk (1/2) false) 100).1.progress ∧
        (animateTick (ClockState.mk (1/2) false) 100).1.progress ≤ 1) ∧
      ((animateTick (ClockState.mk (999/1000) false) 200).2 = true ∧
        (ClockState.mk (999/1000) false).done = false ∧
        (animateTick (ClockState.mk (999/1000) false) 200).1 =
          { progress := 1, done := true }) ∧
      ((ClockState.mk 1 true).done = true ∧
        animateTick (ClockState.mk 1 true) 7 = (ClockState.mk 1 true, false)) ∧
      ((runClock clockStart [100, 100]).2 ≤ 1 ∧
        ((runClock clockStart [100, 100]).2 = 1 ↔
          (runClock clockStart [100, 100]).1.done = true)) :=
  ⟨⟨by decide, by decide,
    (c2_animation_clock_amended.2.1 (ClockState.mk (1/2) false) 100
      (by decide) (by decide)).1,
    (c2_animation_clock_amended.2.1 (ClockState.mk (1/2) false) 100
      (by decide) (by decide)).2⟩,
   ⟨by decide,
    (c2_animation_clock_amended.2.2.1 (ClockState.mk (999/1000) false) 200 (by decide)).1,
    (c2_animation_clock_amended.2.2.1 (ClockState.mk (999/1000) false) 200 (by decide)).2⟩,
   ⟨rfl, c2_animation_clock_amended.2.2.2.1 (ClockState.mk 1 true) 7 rfl⟩,
   c2_animation_clock_amended.2.2.2.2 [100, 100]⟩

unseal Rat.add Rat.sub Rat.mul Rat.inv in
theorem c2_animation_clock_cex :
    animateStep004 (9/10) 500 < 9/10 ∧ ¬ (0 < animationProgressOnStart004) := by
  decide

lemma cubicCalc_nonuniform_zero (x0 x1 x2 x3 d0 d1 d2 : Rat) :
    cubicCalc (nonuniformInit x0 x1 x2 x3 d0 d1 d2) 0 = x1 := by
  unfold cubicCalc nonuniformInit cubicInit
  ring

lemma cubicCalc_nonuniform_one (x0 x1 x2 x3 d0 d1 d2 : Rat) :
    cubicCalc (nonuniformInit x0 x1 x2 x3 d0 d1 d2) 1 = x2 := by
  unfold cubicCalc nonuniformInit cubicInit
  ring

lemma catmullRomSegment_zero (p0 p1 p2 p3 : Vec3) (d0 d1 d2 : Rat) :
    catmullRomSegment p0 p1 p2 p3 d0 d1 d2 0 = p1 := by
  cases p1
  simp [catmullRomSegment, cubicCalc_nonuniform_zero]

lemma catmullRomSegment_one (p0 p1 p2 p3 : Vec3) (d0 d1 d2 : Rat) :
    catmullRomSegment p0 p1 p2 p3 d0 d1 d2 1 = p2 := by
  cases p2
  simp [catmullRomSegment, cubicCalc_nonuniform_one]

lemma curveGetPoint_zero (k : Vec3 → Vec3 → Vec3 → Vec3 → Rat × Rat × Rat)
    (a m b : Vec3) : curveGetPoint k a m b 0 = a := by
  unfold curveGetPoint
  norm_num
  exact catmullRomSegment_zero _ _ _ _ _ _ _

lemma curveGetPoint_one (k : Vec3 → Vec3 → Vec3 → Vec3 → Rat × Rat × Rat)
    (a m b : Vec3) : curveGetPoint k a m b 1 = b := by
  unfold curveGetPoint
  norm_num
  exact catmullRomSegment_one _ _ _ _ _ _ _

/-- C7: the arc geometry builder is a pure function of its inputs — equal
inputs give the identical path — and for every pair of endpoints (the
claim's hypothesis restricts to distinct ones) the sampled path has exactly
51 points, its first point equals the start point and its last point equals
the end point (exactly, in this rational-arithmetic embedding; the source
says within floating tolerance). This holds for every displaced midpoint
and every assignment of centripetal knot spacings. -/
theorem c7_arc_geometry (k : Vec3 → Vec3 → Vec3 → Vec3 → Rat × Rat × Rat)
    (s e m : Vec3) (h : s ≠ e) :
    (arcPoints k s e m).length = 51 ∧
      (arcPoints k s e m)[0]? = some s ∧
      (arcPoints k s e m)[50]? = some e ∧
      ∀ (k2 : Vec3 → Vec3 → Vec3 → Vec3 → Rat × Rat × Rat) (s2 e2 m2 : Vec3),
        k = k2 → s = s2 → e = e2 → m = m2 →
          arcPoints k s e m = arcPoints k2 s2 e2 m2 := by
  refine ⟨?_, ?_, ?_, ?_⟩
  · unfold arcPoints getPoints50
    rw [List.length_map, List.length_range]
  · unfold arcPoints getPoints50
    rw [List.getElem?_map, List.getElem?_range (by norm_num)]
    have h0 : ((0 : Nat) : Rat) / 50 = 0 := by norm_num
    simp only [Option.map_some']
    rw [h0, curveGetPoint_zero]
  · unfold arcPoints getPoints50
    rw [List.getElem?_map, List.getElem?_range (by norm_num)]
    have h1 : ((50 : Nat) : Rat) / 50 = 1 := by norm_num
    simp only [Option.map_some']
    rw [h1, curveGetPoint_one]
  · intro k2 s2 e2 m2 hk hs he hm
    rw [hk, hs, he, hm]

theorem c7_arc_geometry_witness :
    ((Vec3.mk 0 0 0) ≠ (Vec3.mk 1 0 0)) ∧
      (arcPoints (fun p0 p1 p2 p3 => (1, 1, 1)) (Vec3.mk 0 0 0) (Vec3.mk 1 0 0)
          (Vec3.mk 0 1 0)).length = 51 ∧
      (arcPoints (fun p0 p1 p2 p3 => (1, 1, 1)) (Vec3.mk 0 0 0) (Vec3.mk 1 0 0)
          (Vec3.mk 0 1 0))[0]? = some (Vec3.mk 0 0 0) ∧
      (arcPoints (fun p0 p1 p2 p3 => (1, 1, 1)) (Vec3.mk 0 0 0) (Vec3.mk 1 0 0)
          (Vec3.mk 0 1 0))[50]? = some (Vec3.mk 1 0 0) :=
  ⟨by decide,
   (c7_arc_geometry (fun p0 p1 p2 p3 => (1, 1, 1)) (Vec3.mk 0 0 0) (Vec3.mk 1 0 0)
     (Vec3.mk 0 1 0) (by decide)).1,
   (c7_arc_geometry (fun p0 p1 p2 p3 => (1, 1, 1)) (Vec3.mk 0 0 0) (Vec3.mk 1 0 0)
     (Vec3.mk 0 1 0) (by decide)).2.1,
   (c7_arc_geometry (fun p0 p1 p2 p3 => (1, 1, 1)) (Vec3.mk 0 0 0) (Vec3.mk 1 0 0)
     (Vec3.mk 0 1 0) (by decide)).2.2.1⟩



